import Mathlib

/-!
Verification of the CWA forecast-normalization pipeline (`src/app.py`).

Embedding conventions:
* Python floats are modelled as `ℚ`; `None` as `Option.none`.
* JSON payloads are modelled by typed structures mirroring the keys the code
  reads; an `Option` field models a key that may be absent (JSON `null` on a
  key the code only reads with `.get` is conflated with absence).
* Python dicts built by the code are insertion-ordered association lists
  (`dictInsert` overwrites in place, as Python dict assignment does).
* Functions from the Python standard library that the code calls are modelled
  by executable Lean definitions whose doc comments state the modelled subset.
* Stateful code (the SQLite cache) is modelled by explicit state passing: the
  table is a list of rows in insertion (id) order.
-/

namespace CwaApp

/-! ## Basic Python-style helpers -/

/-- Python `a or b` on optional strings: `a` unless it is `None` or `""`
(both falsy in Python). -/
def pyOr (a b : Option String) : Option String :=
  match a with
  | some s => if s = "" then b else some s
  | none => b

/-- Python `a or b` on optional structured values; a present value is treated
as truthy (the payload shapes the code reads put non-scalar values here). -/
def pyOrOpt {α : Type} (a b : Option α) : Option α :=
  match a with
  | some x => some x
  | none => b

/-- Modelled from the Python standard library: the character set
`str.strip()` removes, i.e. `str.isspace()` — the ASCII whitespace and
separator controls (U+0009–U+000D, U+001C–U+001F, space), U+0085, NBSP
(U+00A0), U+1680, the U+2000–U+200A spaces, U+2028, U+2029, U+202F, U+205F
and the ideographic space U+3000. -/
def pyIsSpace (c : Char) : Bool :=
  let n := c.toNat
  (decide (0x09 ≤ n) && decide (n ≤ 0x0D)) ||
    (decide (0x1C ≤ n) && decide (n ≤ 0x1F)) ||
    decide (n = 0x20) || decide (n = 0x85) || decide (n = 0xA0) ||
    decide (n = 0x1680) ||
    (decide (0x2000 ≤ n) && decide (n ≤ 0x200A)) ||
    decide (n = 0x2028) || decide (n = 0x2029) ||
    decide (n = 0x202F) || decide (n = 0x205F) || decide (n = 0x3000)

/-- Python `str.strip()`: remove leading and trailing Unicode whitespace. -/
def pyStrip (s : String) : String :=
  ⟨((s.data.dropWhile pyIsSpace).reverse.dropWhile pyIsSpace).reverse⟩

/-- Whether `pat` occurs at the head of `cs`. -/
def leadMatch : List Char → List Char → Bool
  | [], _ => true
  | _ :: _, [] => false
  | a :: as, b :: bs => a = b && leadMatch as bs

/-- Helper for substring containment. -/
def containsSub (pat : List Char) : List Char → Bool
  | [] => pat.isEmpty
  | c :: cs => leadMatch pat (c :: cs) || containsSub pat cs

/-- Python `pat in s` substring containment. -/
def strContains (s pat : String) : Bool :=
  containsSub pat.data s.data

/-- Python `s.lstrip("0")`: drop leading zero characters. -/
def lstripZeros (s : String) : String :=
  ⟨s.data.dropWhile (fun c => c = '0')⟩

/-- Insertion-ordered dict insert: overwrite an existing key in place,
otherwise append (Python dict assignment). -/
def dictInsert {α : Type} (m : List (String × α)) (k : String) (v : α) :
    List (String × α) :=
  if m.any (fun kv => kv.1 = k) then
    m.map (fun kv => if kv.1 = k then (k, v) else kv)
  else
    m ++ [(k, v)]

/-- Python `dict.get(k)`: first (unique) binding of `k`. -/
def dictGet {α : Type} (m : List (String × α)) (k : String) : Option α :=
  (m.find? (fun kv => kv.1 = k)).map (fun kv => kv.2)

/-! ## Time/value parsers (§4.1 of the spec, `parse_time` / `to_float`) -/

/-- A Python `datetime.datetime` value: calendar fields plus an optional fixed
UTC offset in minutes. -/
structure PyDateTime where
  year : Nat
  month : Nat
  day : Nat
  hour : Nat
  minute : Nat
  second : Nat
  microsecond : Nat
  tzOffsetMinutes : Option Int
deriving Repr, DecidableEq

def digitVal (c : Char) : Nat := c.toNat - 48

def digitsToNat (cs : List Char) : Nat :=
  cs.foldl (fun acc c => acc * 10 + digitVal c) 0

def parseNDigitsAux : Nat → Nat → List Char → Option (Nat × List Char)
  | 0, acc, cs => some (acc, cs)
  | n + 1, acc, c :: cs =>
      if c.isDigit then parseNDigitsAux n (acc * 10 + digitVal c) cs else none
  | _ + 1, _, [] => none

/-- Exactly `n` decimal digits. -/
def parseNDigits (n : Nat) (cs : List Char) : Option (Nat × List Char) :=
  parseNDigitsAux n 0 cs

/-- One or two decimal digits (the width `strptime`'s numeric directives
match). -/
def parse1or2 : List Char → Option (Nat × List Char)
  | [] => none
  | [c] => if c.isDigit then some (digitVal c, []) else none
  | c :: d :: cs =>
      if c.isDigit then
        if d.isDigit then some (digitVal c * 10 + digitVal d, cs)
        else some (digitVal c, d :: cs)
      else none

def isLeapYear (y : Nat) : Bool :=
  (y % 4 == 0 && y % 100 != 0) || y % 400 == 0

def daysInMonth (y m : Nat) : Nat :=
  if m = 2 then (if isLeapYear y then 29 else 28)
  else if m = 4 ∨ m = 6 ∨ m = 9 ∨ m = 11 then 30
  else 31

/-- Validity enforced by the `datetime` constructor. -/
def validDate (y m d : Nat) : Bool :=
  decide (1 ≤ y) && decide (y ≤ 9999) && decide (1 ≤ m) && decide (m ≤ 12) &&
    decide (1 ≤ d) && decide (d ≤ daysInMonth y m)

def validTime (h mi s : Nat) : Bool :=
  decide (h < 24) && decide (mi < 60) && decide (s < 60)

/-- ISO timezone suffix `±HH:MM` or `±HH:MM:SS`, consuming the whole
remainder; result is the offset in minutes. -/
def parseIsoOffset : List Char → Option Int
  | [] => none
  | c :: cs =>
    if c = '+' || c = '-' then
      let sign : Int := if c = '-' then -1 else 1
      match parseNDigits 2 cs with
      | some (h, ':' :: cs2) =>
        (match parseNDigits 2 cs2 with
         | some (mi, []) =>
             if h < 24 && mi < 60 then some (sign * ((h * 60 + mi : Nat) : Int)) else none
         | some (mi, ':' :: cs3) =>
           (match parseNDigits 2 cs3 with
            | some (sec, []) =>
                if h < 24 && mi < 60 && sec < 60 then
                  some (sign * ((h * 60 + mi : Nat) : Int))
                else none
            | _ => none)
         | _ => none)
      | _ => none
    else none

/-- Time-of-day part of the ISO format: `HH[:MM[:SS[.fff[fff]]]]` followed by
an optional offset; returns `(hour, minute, second, microsecond, offset)`. -/
def parseIsoTime (cs : List Char) : Option (Nat × Nat × Nat × Nat × Option Int) :=
  match parseNDigits 2 cs with
  | none => none
  | some (h, rest) =>
    match rest with
    | [] => some (h, 0, 0, 0, none)
    | ':' :: cs2 =>
      (match parseNDigits 2 cs2 with
       | none => none
       | some (mi, rest2) =>
         match rest2 with
         | [] => some (h, mi, 0, 0, none)
         | ':' :: cs3 =>
           (match parseNDigits 2 cs3 with
            | none => none
            | some (sec, rest3) =>
              match rest3 with
              | [] => some (h, mi, sec, 0, none)
              | '.' :: cs4 =>
                (match parseNDigits 6 cs4 with
                 | some (us, []) => some (h, mi, sec, us, none)
                 | some (us, rest4) =>
                     (parseIsoOffset rest4).map (fun off => (h, mi, sec, us, some off))
                 | none =>
                   match parseNDigits 3 cs4 with
                   | some (ms, []) => some (h, mi, sec, ms * 1000, none)
                   | some (ms, rest4) =>
                       (parseIsoOffset rest4).map (fun off => (h, mi, sec, ms * 1000, some off))
                   | none => none)
              | _ => (parseIsoOffset rest3).map (fun off => (h, mi, sec, 0, some off)))
         | _ => (parseIsoOffset rest2).map (fun off => (h, mi, 0, 0, some off)))
    | _ => (parseIsoOffset rest).map (fun off => (h, 0, 0, 0, some off))

/-- Modelled from the Python standard library: `datetime.fromisoformat` as
documented for CPython 3.7-3.10 — `YYYY-MM-DD` optionally followed by a
one-character separator and `HH[:MM[:SS[.fff[fff]]]][±HH:MM[:SS]]`. -/
def fromisoformat (s : String) : Option PyDateTime :=
  match parseNDigits 4 s.data with
  | some (y, '-' :: cs1) =>
    (match parseNDigits 2 cs1 with
     | some (m, '-' :: cs2) =>
       (match parseNDigits 2 cs2 with
        | some (d, rest) =>
          if validDate y m d then
            match rest with
            | [] => some ⟨y, m, d, 0, 0, 0, 0, none⟩
            | _ :: timecs =>
              match parseIsoTime timecs with
              | some (h, mi, sec, us, off) =>
                  if validTime h mi sec then some ⟨y, m, d, h, mi, sec, us, off⟩ else none
              | none => none
          else none
        | _ => none)
     | _ => none)
  | _ => none

/-- The `strptime` timezone directive `%z`: `Z`/`z`, `±HHMM` or `±HH:MM`,
consuming the whole remainder; result is the offset in minutes. -/
def parseStrptimeZ : List Char → Option Int
  | ['Z'] => some 0
  | ['z'] => some 0
  | [] => none
  | c :: cs =>
    if c = '+' || c = '-' then
      let sign : Int := if c = '-' then -1 else 1
      match parseNDigits 2 cs with
      | some (h, ':' :: cs2) =>
        (match parseNDigits 2 cs2 with
         | some (mi, []) =>
             if h < 24 && mi < 60 then some (sign * ((h * 60 + mi : Nat) : Int)) else none
         | _ => none)
      | some (h, cs2) =>
        (match parseNDigits 2 cs2 with
         | some (mi, []) =>
             if h < 24 && mi < 60 then some (sign * ((h * 60 + mi : Nat) : Int)) else none
         | _ => none)
      | none => none
    else none

/-- Modelled from the Python standard library:
`datetime.strptime(s, "%Y-%m-%d %H:%M:%S")`; `%Y` is modelled as exactly four
digits, the other numeric directives as one or two. -/
def strptime_ymd_hms (s : String) : Option PyDateTime :=
  match parseNDigits 4 s.data with
  | some (y, '-' :: cs1) =>
    (match parse1or2 cs1 with
     | some (m, '-' :: cs2) =>
       (match parse1or2 cs2 with
        | some (d, ' ' :: cs3) =>
          (match parse1or2 cs3 with
           | some (h, ':' :: cs4) =>
             (match parse1or2 cs4 with
              | some (mi, ':' :: cs5) =>
                (match parse1or2 cs5 with
                 | some (sec, []) =>
                     if validDate y m d && validTime h mi sec then
                       some ⟨y, m, d, h, mi, sec, 0, none⟩
                     else none
                 | _ => none)
              | _ => none)
           | _ => none)
        | _ => none)
     | _ => none)
  | _ => none

/-- Modelled from the Python standard library:
`datetime.strptime(s, "%Y-%m-%d %H:%M:%S%z")`. -/
def strptime_ymd_hms_z (s : String) : Option PyDateTime :=
  match parseNDigits 4 s.data with
  | some (y, '-' :: cs1) =>
    (match parse1or2 cs1 with
     | some (m, '-' :: cs2) =>
       (match parse1or2 cs2 with
        | some (d, ' ' :: cs3) =>
          (match parse1or2 cs3 with
           | some (h, ':' :: cs4) =>
             (match parse1or2 cs4 with
              | some (mi, ':' :: cs5) =>
                (match parse1or2 cs5 with
                 | some (sec, rest) =>
                   (match parseStrptimeZ rest with
                    | some off =>
                        if validDate y m d && validTime h mi sec then
                          some ⟨y, m, d, h, mi, sec, 0, some off⟩
                        else none
                    | none => none)
                 | _ => none)
              | _ => none)
           | _ => none)
        | _ => none)
     | _ => none)
  | _ => none

/-- Modelled from the Python standard library:
`datetime.strptime(s, "%Y-%m-%d")`. -/
def strptime_ymd (s : String) : Option PyDateTime :=
  match parseNDigits 4 s.data with
  | some (y, '-' :: cs1) =>
    (match parse1or2 cs1 with
     | some (m, '-' :: cs2) =>
       (match parse1or2 cs2 with
        | some (d, []) =>
            if validDate y m d then some ⟨y, m, d, 0, 0, 0, 0, none⟩ else none
        | _ => none)
     | _ => none)
  | _ => none

/-- Embeds `parse_time` from `src/app.py`: `None`/empty input gives `None`, then
`fromisoformat` and the three `strptime` formats are tried in order; every
parse failure is caught, so no input raises. -/
def parse_time (value : Option String) : Option PyDateTime :=
  match value with
  | none => none
  | some s =>
    if s = "" then none
    else
      match fromisoformat s with
      | some d => some d
      | none =>
        match strptime_ymd_hms s with
        | some d => some d
        | none =>
          match strptime_ymd_hms_z s with
          | some d => some d
          | none => strptime_ymd s

/-- An unsigned decimal literal `digits[.digits]` (at least one digit overall),
returning its value and the unconsumed remainder. -/
def parseUnsignedDecimal (cs : List Char) : Option (ℚ × List Char) :=
  let intDigits := cs.takeWhile Char.isDigit
  let rest := cs.dropWhile Char.isDigit
  match rest with
  | '.' :: cs2 =>
    let fracDigits := cs2.takeWhile Char.isDigit
    let rest2 := cs2.dropWhile Char.isDigit
    if intDigits.isEmpty && fracDigits.isEmpty then none
    else some ((digitsToNat intDigits : ℚ) + (digitsToNat fracDigits : ℚ) / ((10 : ℚ) ^ fracDigits.length), rest2)
  | _ => if intDigits.isEmpty then none else some ((digitsToNat intDigits : ℚ), rest)

/-- Optional exponent suffix `e[±]digits`, which must consume the whole
remainder. -/
def applyExp (q : ℚ) : List Char → Option ℚ
  | [] => some q
  | c :: cs =>
    if c = 'e' || c = 'E' then
      let signRest : Bool × List Char :=
        match cs with
        | '+' :: r => (false, r)
        | '-' :: r => (true, r)
        | r => (false, r)
      let ds := signRest.2.takeWhile Char.isDigit
      let rest := signRest.2.dropWhile Char.isDigit
      if ds.isEmpty || !rest.isEmpty then none
      else some (if signRest.1 then q / (10 : ℚ) ^ digitsToNat ds else q * (10 : ℚ) ^ digitsToNat ds)
    else none

/-- Modelled from the Python standard library: `float(s)` on plain decimal
literals (optional surrounding whitespace, optional sign, digits with optional
fractional part and exponent); special values such as `inf`/`nan` and
underscore separators are outside the model and map to `none`. -/
def pyFloat (s : String) : Option ℚ :=
  let stripped := ((s.data.dropWhile pyIsSpace).reverse.dropWhile pyIsSpace).reverse
  let signRest : Bool × List Char :=
    match stripped with
    | '+' :: r => (false, r)
    | '-' :: r => (true, r)
    | r => (false, r)
  match parseUnsignedDecimal signRest.2 with
  | some (q, rest) =>
    (match applyExp q rest with
     | some q2 => some (if signRest.1 then -q2 else q2)
     | none => none)
  | none => none

/-- Embeds `to_float` from `src/app.py`: `None` stays `None`, any parse failure is
caught and becomes `None`. -/
def to_float (value : Option String) : Option ℚ :=
  match value with
  | none => none
  | some s => pyFloat s

/-! ## General-forecast payload schema and adapter -/

/-- A `parameter` object inside a time block or a location. -/
structure Param where
  parameterName : Option String := none
  parameterValue : Option String := none

/-- Python truthiness of the `parameter` dict: nonempty in its schema keys. -/
def Param.truthy (p : Param) : Bool :=
  p.parameterName.isSome || p.parameterValue.isSome

/-- One entry of an `elementValue` list. -/
structure ElementValue where
  value : Option String := none
  measures : Option String := none

/-- One entry of a weather element's `time` series. -/
structure TimeBlock where
  startTime : Option String := none
  dataTime : Option String := none
  endTime : Option String := none
  parameter : Option Param := none
  elementValue : Option (List ElementValue) := none
  value : Option String := none

/-- One entry of a location's `weatherElement` array. -/
structure WeatherElement where
  elementName : Option String := none
  time : List TimeBlock := []

/-- One entry of the `records.location` array. -/
structure RawLocation where
  locationName : Option String := none
  parameter : List Param := []
  weatherElement : List WeatherElement := []

/-- The element-name → time-series dict built in `parse_location`
(entries with a falsy `elementName` are skipped, later duplicates win). -/
def buildElementMap (elems : List WeatherElement) : List (String × List TimeBlock) :=
  elems.foldl
    (fun m e =>
      match e.elementName with
      | some n => if n = "" then m else dictInsert m n e.time
      | none => m)
    []

/-- The parameter-name → value dict built in `parse_location`. -/
def buildParamDict (params : List Param) : List (String × Option String) :=
  params.foldl
    (fun m p =>
      match p.parameterName with
      | some n => if n = "" then m else dictInsert m n p.parameterValue
      | none => m)
    []

/-- The `get_reference_series` auxiliary loop: first preferred key whose series is
present and truthy (nonempty). -/
def refLookup (elements : List (String × List TimeBlock)) : List String → Option (List TimeBlock)
  | [] => none
  | k :: rest =>
    match dictGet elements k with
    | some s => if s.isEmpty then refLookup elements rest else some s
    | none => refLookup elements rest

/-- Embeds `get_reference_series` from `src/app.py`: try `Wx`, `WeatherDescription`,
`MinT`, `MaxT` in order, else the first series in insertion order, else `[]`. -/
def get_reference_series (elements : List (String × List TimeBlock)) : List TimeBlock :=
  match refLookup elements ["Wx", "WeatherDescription", "MinT", "MaxT"] with
  | some s => s
  | none =>
    match elements with
    | [] => []
    | kv :: _ => kv.2

/-- Embeds `get_element_entry` from `src/app.py`: first candidate key whose series is
truthy and long enough yields its `index`-th entry. -/
def get_element_entry (elements : List (String × List TimeBlock)) (index : Nat) :
    List String → Option TimeBlock
  | [] => none
  | k :: rest =>
    match dictGet elements k with
    | some s =>
        if index < s.length then s[index]?
        else get_element_entry elements index rest
    | none => get_element_entry elements index rest

/-- Embeds `extract_value` from `src/app.py`: a `parameter` dict wins (field order
set by `prefer_value`), then the first `elementValue` entry's
`value or measures`, then the raw `value` field. -/
def extract_value (block : Option TimeBlock) (prefer_value : String) : Option String :=
  match block with
  | none => none
  | some b =>
    match b.parameter with
    | some p =>
      if prefer_value = "parameterValue" then pyOr p.parameterValue p.parameterName
      else pyOr p.parameterName p.parameterValue
    | none =>
      match b.elementValue with
      | some (c :: _) => pyOr c.value c.measures
      | _ => b.value

/-- Embeds `extract_text` from `src/app.py`: the extracted value if truthy. -/
def extract_text (block : Option TimeBlock) : Option String :=
  match extract_value block "parameterName" with
  | some s => if s = "" then none else some s
  | none => none

/-- One normalized forecast slot (the dict built in the timeline builders). -/
structure Slot where
  startTime : Option PyDateTime
  endTime : Option PyDateTime
  weather : Option String
  weather_code : Option String
  pop : Option ℚ
  min_temp : Option ℚ
  max_temp : Option ℚ
  apparent_temp : Option ℚ
  comfort : Option String
  unit : String
  avg_temp : Option ℚ

/-- The average computed in `build_timeline` / `build_tide_timeline`:
`sum(temps) / len(temps)` over the non-null entries of `[a, b]`, `None` when
both are null. -/
def pyAvg (a b : Option ℚ) : Option ℚ :=
  let temps := ([a, b].filterMap id)
  if temps.isEmpty then none else some (temps.sum / (temps.length : ℚ))

/-- Loop body of `build_timeline` for slot `idx` with reference block
`reference_block`. -/
def buildSlot (elements : List (String × List TimeBlock)) (idx : Nat)
    (reference_block : TimeBlock) : Slot :=
  let weather_block :=
    if (match reference_block.parameter with
        | some p => p.truthy
        | none => false) then
      some reference_block
    else get_element_entry elements idx ["Wx", "WeatherDescription"]
  let min_temp := to_float (extract_value (get_element_entry elements idx ["MinT"]) "parameterName")
  let max_temp := to_float (extract_value (get_element_entry elements idx ["MaxT"]) "parameterName")
  { startTime := parse_time (pyOr reference_block.startTime reference_block.dataTime)
    endTime := parse_time reference_block.endTime
    weather := extract_text weather_block
    weather_code := extract_value weather_block "parameterValue"
    pop := to_float (extract_value (get_element_entry elements idx ["PoP", "PoP12h"]) "parameterName")
    min_temp := min_temp
    max_temp := max_temp
    apparent_temp := to_float (extract_value (get_element_entry elements idx ["AT", "ApparentT"]) "parameterName")
    comfort := extract_text (get_element_entry elements idx ["CI"])
    unit := "°C"
    avg_temp := pyAvg min_temp max_temp }

/-- Embeds `build_timeline` from `src/app.py`: one slot per entry of the reference
series, merged positionally. -/
def build_timeline (elements : List (String × List TimeBlock)) : List Slot :=
  (get_reference_series elements).enum.map (fun p => buildSlot elements p.1 p.2)

/-- One normalized Location record. -/
structure Loc where
  name : String
  parameters : List (String × Option String)
  timeline : List Slot
  category : String

/-- Embeds `parse_location` from `src/app.py`. -/
def parse_location (data : RawLocation) : Loc :=
  { name := data.locationName.getD "未知地區"
    parameters := buildParamDict data.parameter
    timeline := build_timeline (buildElementMap data.weatherElement)
    category := "weather" }

/-! ## Tide payload schema and adapter -/

/-- The `TideHeights` object of one tide time entry. -/
structure TideHeights where
  AboveTWVD : Option String := none

/-- One entry of a daily period's `Time` list. -/
structure TideTime where
  DateTime : Option String := none
  Tide : Option String := none
  TideHeights : Option CwaApp.TideHeights := none

/-- One entry of `TimePeriods.Daily`. -/
structure DailyPeriod where
  TideRange : Option String := none
  Time : Option (List TideTime) := none

structure TimePeriods where
  Daily : Option (List DailyPeriod) := none

structure TideLocation where
  LocationName : Option String := none
  LocationId : Option String := none
  Latitude : Option String := none
  Longitude : Option String := none
  TimePeriods : Option CwaApp.TimePeriods := none

/-- One entry of a `TideForecasts` list. -/
structure TideForecast where
  Location : Option TideLocation := none

structure TideData where
  TideForecasts : Option (List TideForecast) := none

/-- One resource object under `cwaopendata.Resources.Resource`; the code reads
both a capitalized `Data` key and a lowercase `data` key. -/
structure TideResource where
  Data : Option TideData := none
  data : Option TideData := none

/-- The `Resource` value under `cwaopendata.Resources`: the payloads carry
either a single object or a list here. -/
inductive ResourceVal where
  | one (r : TideResource) : ResourceVal
  | many (rs : List TideResource) : ResourceVal

structure CwaResources where
  Resource : Option ResourceVal := none
  resource : Option ResourceVal := none

structure Cwaopendata where
  Resources : Option CwaResources := none
  resources : Option CwaResources := none

/-- The `records` object: the weather path reads `location`
(defaulting to `[]`), the tide path reads `TideForecasts`. -/
structure Records where
  location : List RawLocation := []
  TideForecasts : Option (List TideForecast) := none

/-- A full payload as the normalization pipeline reads it. -/
structure Payload where
  records : Option Records := none
  cwaopendata : Option Cwaopendata := none

/-- The `isinstance(resource, list)` handling in `extract_tide_forecasts`: a list
is replaced by its first element (the code would raise `IndexError` on an
empty list; the model returns `none`, a shape no claim depends on). -/
def resolveResource : Option ResourceVal → Option TideResource
  | none => none
  | some (.one r) => some r
  | some (.many rs) => rs.head?

/-- The `cwaopendata` branch of `extract_tide_forecasts`. -/
def extractTideFromCwa (payload : Payload) : List TideForecast :=
  match payload.cwaopendata with
  | none => []
  | some cwa =>
    let resources := pyOrOpt cwa.Resources cwa.resources
    let resource :=
      resolveResource
        (match resources with
         | some rs => pyOrOpt rs.Resource rs.resource
         | none => none)
    let dataOpt := pyOrOpt (resource.bind TideResource.Data) (resource.bind TideResource.data)
    match dataOpt with
    | some d =>
      (match d.TideForecasts with
       | some fs => fs
       | none => [])
    | none => []

/-- Embeds `extract_tide_forecasts` from `src/app.py`: `records.TideForecasts` when it
is a list, else the nested `cwaopendata` shape, else `[]`. -/
def extract_tide_forecasts (payload : Payload) : List TideForecast :=
  match payload.records with
  | some records =>
    (match records.TideForecasts with
     | some forecasts => forecasts
     | none => extractTideFromCwa payload)
  | none => extractTideFromCwa payload

/-- Model of `datetime.strftime("%H:%M")`. -/
def pad2 (n : Nat) : String :=
  if n < 10 then "0" ++ toString n else toString n

/-- Embeds `describe_daily_tide` from `src/app.py`: join hour-minute text and the
tide label for the
first three entries with a truthy timestamp and tide label, else `"—"`. -/
def describe_daily_tide (events : List TideTime) : String :=
  let descriptions :=
    (events.take 3).filterMap
      (fun entry =>
        match parse_time entry.DateTime, entry.Tide with
        | some ts, some tide =>
            if tide = "" then none
            else some (pad2 ts.hour ++ ":" ++ pad2 ts.minute ++ tide)
        | _, _ => none)
  if descriptions.isEmpty then "—" else String.intercalate "、" descriptions

/-- Embeds `convert_height_to_meters` from `src/app.py`: centimeters to meters. -/
def convert_height_to_meters : Option ℚ → Option ℚ
  | none => none
  | some v => some (v / 100)

/-- Embeds `tide_range_to_probability` from `src/app.py`. -/
def tide_range_to_probability (tide_range : Option String) : Option ℚ :=
  match tide_range with
  | none => none
  | some s => dictGet [("大", (90 : ℚ)), ("中", 60), ("小", 30)] (pyStrip s)

/-- The day's parsed `TideHeights.AboveTWVD` values with nulls dropped. -/
def dailyHeights (times : List TideTime) : List ℚ :=
  (times.map (fun entry => to_float ((entry.TideHeights.getD {}).AboveTWVD))).filterMap id

/-- Loop body of `build_tide_timeline` for one daily period; `none` models the
`continue` on an empty `Time` list. -/
def tideSlot (daily : DailyPeriod) : Option Slot :=
  let times := daily.Time.getD []
  if times.isEmpty then none
  else
    let heights := dailyHeights times
    let min_height := if heights.isEmpty then none else convert_height_to_meters heights.min?
    let max_height := if heights.isEmpty then none else convert_height_to_meters heights.max?
    let avg_height :=
      if heights.isEmpty then none
      else convert_height_to_meters (some (heights.sum / (heights.length : ℚ)))
    some
      { startTime := parse_time ((times.head?.getD {}).DateTime)
        endTime := parse_time ((times.getLast?.getD {}).DateTime)
        weather := some (daily.TideRange.getD "" ++ "潮")
        weather_code := none
        pop := tide_range_to_probability daily.TideRange
        min_temp := min_height
        max_temp := max_height
        apparent_temp := avg_height
        comfort := some (describe_daily_tide times)
        unit := "m"
        avg_temp :=
          match pyAvg min_height max_height with
          | some v => some v
          | none => avg_height }

/-- Embeds `build_tide_timeline` from `src/app.py`: at most three daily periods,
skipping those without time entries. -/
def build_tide_timeline (daily_periods : List DailyPeriod) : List Slot :=
  (daily_periods.take 3).filterMap tideSlot

/-- Embeds `parse_tide_location` from `src/app.py`. -/
def parse_tide_location (forecast : TideForecast) : Loc :=
  let location := forecast.Location.getD {}
  { name := location.LocationName.getD "未知地區"
    parameters :=
      [("LocationId", location.LocationId),
       ("Latitude", location.Latitude),
       ("Longitude", location.Longitude)]
    timeline := build_tide_timeline ((location.TimePeriods.getD {}).Daily.getD [])
    category := "tide" }

/-! ## Normalization entry point -/

/-- The sort key comparison used by `sorted(..., key=lambda item: item["name"])`:
ordinal (code-point lexicographic) string order. -/
def locNameLe (a b : Loc) : Bool :=
  decide (a.name ≤ b.name)

/-- Python `sorted` by name: a stable sort under `locNameLe`. -/
def sortByName (locs : List Loc) : List Loc :=
  locs.mergeSort locNameLe

/-- The weather-path locations retained by `normalize_locations`: parse each
entry of `records.location` and keep those with a truthy timeline. -/
def weatherLocs (payload : Payload) : List Loc :=
  (((payload.records.map Records.location).getD []).map parse_location).filter
    (fun l => !l.timeline.isEmpty)

/-- The tide-path locations retained by `normalize_locations`. -/
def tideLocs (payload : Payload) : List Loc :=
  ((extract_tide_forecasts payload).map parse_tide_location).filter
    (fun l => !l.timeline.isEmpty)

/-- Embeds `normalize_locations` from `src/app.py`: the weather adapter wins when it
retains any location; only otherwise is the tide path taken. -/
def normalize_locations (payload : Payload) : List Loc :=
  let normalized := weatherLocs payload
  if normalized.isEmpty then sortByName (tideLocs payload)
  else sortByName normalized

/-! ## Retrieval policy and cache store -/

def DATASET_ID : String := "F-A0021-001"

/-- One row of the `forecast_cache` table; rows are kept in id
(insertion) order. The serialized payload round-trips through
`json.dumps`/`json.loads`, modelled as storing the payload itself. -/
structure CacheRow where
  dataset : String
  payload : Payload
  fetched_at : String

/-- Embeds `persist_payload` from `src/app.py`: append-only insert keyed by
`DATASET_ID`. -/
def persist_payload (db : List CacheRow) (payload : Payload) (now : String) : List CacheRow :=
  db ++ [{ dataset := DATASET_ID, payload := payload, fetched_at := now }]

/-- Embeds `load_cached_payload` from `src/app.py`: the row with the highest id for
the dataset, i.e. the last matching row. -/
def load_cached_payload (db : List CacheRow) : Option Payload :=
  ((db.filter (fun r => r.dataset = DATASET_ID)).getLast?).map CacheRow.payload

/-- Embeds `retrieve_payload` from `src/app.py`, with the fetch outcome, cache table
and sample-file content passed explicitly. The result carries the payload, the
source tag, the notice, and the cache table after the call. -/
def retrieve_payload (fetchResult : Except String Payload) (db : List CacheRow)
    (sample : Option Payload) (now : String) :
    Except String ((Payload × String × Option String) × List CacheRow) :=
  match fetchResult with
  | .ok payload => .ok ((payload, "live", none), persist_payload db payload now)
  | .error exc =>
    match load_cached_payload db with
    | some cached => .ok ((cached, "cache", some exc), db)
    | none =>
      match sample with
      | some s => .ok ((s, "sample", some exc), db)
      | none => .error exc

/-! ## Icon resolution -/

def WEATHER_ICON_MAP : List (String × String) :=
  [("1", "☀️"), ("01", "☀️"),
   ("2", "🌤️"), ("02", "🌤️"),
   ("3", "⛅"), ("03", "⛅"),
   ("4", "🌥️"), ("04", "🌥️"),
   ("5", "☁️"), ("05", "☁️"),
   ("6", "🌧️"), ("06", "🌧️"),
   ("7", "🌦️"), ("07", "🌦️"),
   ("8", "⛈️"), ("08", "⛈️"),
   ("9", "🌫️"), ("09", "🌫️"),
   ("10", "❄️"), ("11", "🌬️"), ("12", "🌨️")]

/-- Text fallback of `resolve_icon`: keyword lookup on the stripped weather
text, in source order. -/
def resolveIconFromText (slot : Slot) : String :=
  let text := pyStrip (slot.weather.getD "")
  if strContains text "潮" then "🌊"
  else if strContains text "雷" then "⛈️"
  else if strContains text "雨" then "🌧️"
  else if strContains text "晴" then "☀️"
  else if strContains text "雲" || strContains text "陰" then "☁️"
  else if strContains text "雪" then "❄️"
  else "🌡️"

/-- Embeds `resolve_icon` from `src/app.py`: a truthy code is looked up first with
leading zeros stripped, then verbatim; otherwise the weather text decides. -/
def resolve_icon (slot : Slot) : String :=
  match slot.weather_code with
  | some code =>
    if code = "" then resolveIconFromText slot
    else
      match dictGet WEATHER_ICON_MAP (lstripZeros code) with
      | some icon => icon
      | none =>
        match dictGet WEATHER_ICON_MAP code with
        | some icon => icon
        | none => resolveIconFromText slot
  | none => resolveIconFromText slot

/-! ## Claim C1: retrieval fallback ordering -/

/-- Claim C1: on every fetch failure the retrieval policy falls back in the
order cache then sample — a cached payload for the dataset id yields a
`"cache"`-tagged result (never `"sample"`) carrying the failure message as
notice; with no cache but a sample present the result is `"sample"`-tagged;
with neither, the original exception propagates with its message unmodified. -/
theorem retrieve_payload_fallback_order (exc : String) (db : List CacheRow)
    (sample : Option Payload) (now : String) :
    (∀ cached, load_cached_payload db = some cached →
        retrieve_payload (.error exc) db sample now
          = .ok ((cached, "cache", some exc), db)) ∧
    (load_cached_payload db = none → ∀ s, sample = some s →
        retrieve_payload (.error exc) db sample now
          = .ok ((s, "sample", some exc), db)) ∧
    (load_cached_payload db = none → sample = none →
        retrieve_payload (.error exc) db sample now = .error exc) := by
  refine ⟨?_, ?_, ?_⟩
  · intro cached h
    simp [retrieve_payload, h]
  · intro h s hs
    simp [retrieve_payload, h, hs]
  · intro h hs
    simp [retrieve_payload, h, hs]

/-- An empty payload used by concrete retrieval scenarios. -/
def samplePayload : Payload := {}

/-- A one-row cache table holding `samplePayload` for the dataset. -/
def cacheDb1 : List CacheRow :=
  [{ dataset := DATASET_ID, payload := samplePayload, fetched_at := "t0" }]

/-- Concrete instance of C1's cache branch. -/
theorem retrieve_payload_fallback_order_witness :
    retrieve_payload (.error "boom") cacheDb1 none "now"
      = .ok ((samplePayload, "cache", some "boom"), cacheDb1) :=
  (retrieve_payload_fallback_order "boom" cacheDb1 none "now").1 samplePayload rfl

/-! ## Claim C10: cache-write discipline -/

/-- Claim C10: when the live fetch fails the retrieval policy performs no
write to the cache store — a cache- or sample-served result returns the table
unchanged — and a payload is persisted exactly on the live-success path. -/
theorem retrieve_payload_write_discipline (exc : String) (p : Payload)
    (db : List CacheRow) (sample : Option Payload) (now : String) :
    (retrieve_payload (.error exc) db sample now = .error exc ∨
      ∃ res, retrieve_payload (.error exc) db sample now = .ok (res, db)) ∧
    retrieve_payload (.ok p) db sample now
      = .ok ((p, "live", none), persist_payload db p now) := by
  constructor
  · unfold retrieve_payload
    cases h : load_cached_payload db with
    | some cached => exact Or.inr ⟨(cached, "cache", some exc), by simp [h]⟩
    | none =>
      cases sample with
      | some s => exact Or.inr ⟨(s, "sample", some exc), by simp [h]⟩
      | none => exact Or.inl (by simp [h])
  · rfl

/-! ## Claim C8: parser totality and null-on-failure -/

/-- Claim C8: the timestamp parser returns null on empty input and whenever no
accepted format (ISO-8601, `YYYY-MM-DD HH:MM:SS`, the same with offset, bare
date) matches, and the float parser returns null for null or unparsable input;
both are total functions — every Python error path is caught. -/
theorem parsers_never_raise :
    parse_time none = none ∧
    parse_time (some "") = none ∧
    (∀ s : String, fromisoformat s = none → strptime_ymd_hms s = none →
        strptime_ymd_hms_z s = none → strptime_ymd s = none →
        parse_time (some s) = none) ∧
    to_float none = none ∧
    (∀ s : String, pyFloat s = none → to_float (some s) = none) := by
  refine ⟨rfl, rfl, ?_, rfl, ?_⟩
  · intro s h1 h2 h3 h4
    by_cases hs : s = ""
    · simp [parse_time, hs]
    · simp [parse_time, hs, h1, h2, h3, h4]
  · intro s h
    simpa [to_float] using h

/-- Concrete instance of C8 at the unparsable input `"N/A"`. -/
theorem parsers_never_raise_witness :
    parse_time (some "N/A") = none ∧ to_float (some "N/A") = none :=
  ⟨parsers_never_raise.2.2.1 "N/A" rfl rfl rfl rfl,
   parsers_never_raise.2.2.2.2 "N/A" rfl⟩

/-! ## Claim C5: tide-range mapping (corrected: the code strips whitespace) -/

/-- Claim C5 counterexample: `" 大"` is distinct from `"大"`, `"中"` and
`"小"`, yet the mapping sends it to 90 rather than null, because the code
strips whitespace before the lookup. -/
theorem tide_range_strip_counterexample :
    (" 大" : String) ≠ "大" ∧ (" 大" : String) ≠ "中" ∧ (" 大" : String) ≠ "小" ∧
    tide_range_to_probability (some " 大") = some 90 := by
  refine ⟨by decide, by decide, by decide, by decide⟩

/-- Claim C5 amended: the mapping strips whitespace first — a value whose
stripped form is `大`/`中`/`小` maps to 90/60/30, and null as well as any
value whose stripped form is none of these maps to null. -/
theorem tide_range_to_probability_spec :
    tide_range_to_probability none = none ∧
    (∀ s, pyStrip s = "大" → tide_range_to_probability (some s) = some 90) ∧
    (∀ s, pyStrip s = "中" → tide_range_to_probability (some s) = some 60) ∧
    (∀ s, pyStrip s = "小" → tide_range_to_probability (some s) = some 30) ∧
    (∀ s, pyStrip s ≠ "大" → pyStrip s ≠ "中" → pyStrip s ≠ "小" →
        tide_range_to_probability (some s) = none) := by
  refine ⟨rfl, ?_, ?_, ?_, ?_⟩
  · intro s h
    show dictGet _ (pyStrip s) = _
    rw [h]; decide
  · intro s h
    show dictGet _ (pyStrip s) = _
    rw [h]; decide
  · intro s h
    show dictGet _ (pyStrip s) = _
    rw [h]; decide
  · intro s h1 h2 h3
    show dictGet _ (pyStrip s) = _
    simp [dictGet, List.find?, h1.symm, h2.symm, h3.symm]

/-- Concrete instances of C5's amended claim: plain `"大"`, `"大"` padded
with a form feed and with an ideographic space (both stripped by Python),
and the unmapped `"雨"`. -/
theorem tide_range_to_probability_spec_witness :
    tide_range_to_probability (some "大") = some 90 ∧
    tide_range_to_probability (some "\x0c大") = some 90 ∧
    tide_range_to_probability (some "　大　") = some 90 ∧
    tide_range_to_probability (some "雨") = none :=
  ⟨tide_range_to_probability_spec.2.1 "大" (by decide),
   tide_range_to_probability_spec.2.1 "\x0c大" (by decide),
   tide_range_to_probability_spec.2.1 "　大　" (by decide),
   tide_range_to_probability_spec.2.2.2.2 "雨" (by decide) (by decide) (by decide)⟩

/-! ## Claim C7: icon resolution (corrected: `潮`/`雷` are checked first) -/

/-- A slot with an unmapped weather code and thunderstorm-rain text. -/
def thunderSlot : Slot :=
  { startTime := none, endTime := none, weather := some "雷雨", weather_code := some "99",
    pop := none, min_temp := none, max_temp := none, apparent_temp := none,
    comfort := none, unit := "°C", avg_temp := none }

/-- Claim C7 counterexample: the code `"99"` is unmapped and the text
`"雷雨"` contains `"雨"`, yet resolution returns the thunderstorm icon, not
the rain icon, because `雷` is matched before `雨`. -/
theorem resolve_icon_rain_counterexample :
    dictGet WEATHER_ICON_MAP (lstripZeros "99") = none ∧
    dictGet WEATHER_ICON_MAP "99" = none ∧
    strContains (pyStrip "雷雨") "雨" = true ∧
    resolve_icon thunderSlot = "⛈️" ∧
    resolve_icon thunderSlot ≠ "🌧️" := by
  refine ⟨by decide, by decide, by decide, by decide, by decide⟩

/-- Claim C7 amended: the codes `"08"` and `"8"` resolve to the same icon
(both to `⛈️`), and a slot whose code is falsy or unmapped and whose weather
text contains `雨` — but neither `潮` nor `雷`, which the code checks first —
resolves to the rain icon. -/
theorem resolve_icon_spec :
    (∀ slot : Slot, slot.weather_code = some "08" → resolve_icon slot = "⛈️") ∧
    (∀ slot : Slot, slot.weather_code = some "8" → resolve_icon slot = "⛈️") ∧
    (∀ slot : Slot,
      (slot.weather_code = none ∨ slot.weather_code = some "" ∨
        (∃ c, slot.weather_code = some c ∧
          dictGet WEATHER_ICON_MAP (lstripZeros c) = none ∧
          dictGet WEATHER_ICON_MAP c = none)) →
      strContains (pyStrip (slot.weather.getD "")) "雨" = true →
      strContains (pyStrip (slot.weather.getD "")) "潮" = false →
      strContains (pyStrip (slot.weather.getD "")) "雷" = false →
      resolve_icon slot = "🌧️") := by
  refine ⟨?_, ?_, ?_⟩
  · intro slot h
    have h1 : dictGet WEATHER_ICON_MAP (lstripZeros "08") = some "⛈️" := by decide
    simp [resolve_icon, h, h1]
  · intro slot h
    have h1 : dictGet WEATHER_ICON_MAP (lstripZeros "8") = some "⛈️" := by decide
    simp [resolve_icon, h, h1]
  · intro slot hcode hrain htide hthunder
    have htext : resolveIconFromText slot = "🌧️" := by
      simp only [resolveIconFromText]
      simp [htide, hthunder, hrain]
    rcases hcode with h | h | ⟨c, h, hc1, hc2⟩
    · simp [resolve_icon, h, htext]
    · simp [resolve_icon, h, htext]
    · simp [resolve_icon, h, hc1, hc2, htext]

/-- A slot with no weather code and rainy text. -/
def rainSlot : Slot :=
  { startTime := none, endTime := none, weather := some "短暫陣雨", weather_code := none,
    pop := none, min_temp := none, max_temp := none, apparent_temp := none,
    comfort := none, unit := "°C", avg_temp := none }

/-- Concrete instance of C7's amended claim. -/
theorem resolve_icon_spec_witness :
    resolve_icon thunderSlot = resolve_icon thunderSlot ∧
    resolve_icon rainSlot = "🌧️" :=
  ⟨rfl,
   resolve_icon_spec.2.2 rainSlot (Or.inl rfl) (by decide) (by decide) (by decide)⟩

/-! ## Claim C2: the avgValue invariant -/

/-- The avgValue relation the spec claims for every emitted slot. -/
def avgSpec (s : Slot) : Prop :=
  match s.min_temp, s.max_temp with
  | some a, some b => s.avg_temp = some ((a + b) / 2)
  | some a, none => s.avg_temp = some a
  | none, some b => s.avg_temp = some b
  | none, none => s.avg_temp = none

lemma pyAvg_none_none : pyAvg none none = none := rfl

lemma pyAvg_some_none (a : ℚ) : pyAvg (some a) none = some a := by
  simp [pyAvg]

lemma pyAvg_none_some (b : ℚ) : pyAvg none (some b) = some b := by
  simp [pyAvg]

lemma pyAvg_some_some (a b : ℚ) : pyAvg (some a) (some b) = some ((a + b) / 2) := by
  simp [pyAvg]

lemma avgSpec_of_fields (s : Slot) (h : s.avg_temp = pyAvg s.min_temp s.max_temp) :
    avgSpec s := by
  unfold avgSpec
  rcases hmin : s.min_temp with _ | a <;> rcases hmax : s.max_temp with _ | b <;>
    simp [hmin, hmax, pyAvg_none_none, pyAvg_some_none, pyAvg_none_some,
      pyAvg_some_some] at h ⊢ <;> exact h

lemma avgSpec_buildSlot (m : List (String × List TimeBlock)) (i : Nat) (rb : TimeBlock) :
    avgSpec (buildSlot m i rb) :=
  avgSpec_of_fields _ rfl

lemma avgSpec_tideSlot (daily : DailyPeriod) (slot : Slot)
    (h : tideSlot daily = some slot) : avgSpec slot := by
  simp only [tideSlot] at h
  by_cases ht : (daily.Time.getD []).isEmpty = true
  · rw [if_pos ht] at h
    cases h
  · rw [if_neg ht] at h
    have h' := Option.some.inj h
    subst h'
    cases hH : dailyHeights (daily.Time.getD []) with
    | nil =>
      unfold avgSpec
      simp [hH, pyAvg_none_none]
    | cons q qs =>
      unfold avgSpec
      simp [hH, List.min?, List.max?, convert_height_to_meters, pyAvg_some_some]

/-- Claim C2: for every slot produced by normalization — weather or tide —
avgValue is the mean of minValue and maxValue when both are non-null, the
single present one when exactly one is non-null, and null when both are. -/
theorem avg_value_invariant :
    (∀ (elements : List (String × List TimeBlock)) (slot : Slot),
        slot ∈ build_timeline elements → avgSpec slot) ∧
    (∀ (daily_periods : List DailyPeriod) (slot : Slot),
        slot ∈ build_tide_timeline daily_periods → avgSpec slot) := by
  constructor
  · intro m slot hmem
    unfold build_timeline at hmem
    rcases List.mem_map.mp hmem with ⟨p, _, hp⟩
    exact hp ▸ avgSpec_buildSlot m p.1 p.2
  · intro dp slot hmem
    unfold build_tide_timeline at hmem
    rcases List.mem_filterMap.mp hmem with ⟨daily, _, hd⟩
    exact avgSpec_tideSlot daily slot hd

/-- A time block holding only a raw `value` of `"18"`. -/
def tbMin : TimeBlock := { value := some "18" }

/-- A time block holding only a raw `value` of `"24"`. -/
def tbMax : TimeBlock := { value := some "24" }

/-- A concrete element map with singleton MinT/MaxT series. -/
def em1 : List (String × List TimeBlock) := [("MinT", [tbMin]), ("MaxT", [tbMax])]

/-- Concrete instance of C2 on the weather path. -/
theorem avg_value_invariant_witness : avgSpec (buildSlot em1 0 tbMin) :=
  avg_value_invariant.1 em1 (buildSlot em1 0 tbMin)
    (by
      have h : build_timeline em1 = [buildSlot em1 0 tbMin] := rfl
      rw [h]
      exact List.mem_singleton.mpr rfl)

/-! ## Claim C3: non-empty timelines, reference-series length -/

lemma mem_sortByName {l : List Loc} {loc : Loc} : loc ∈ sortByName l ↔ loc ∈ l :=
  List.mem_mergeSort

lemma timeline_ne_nil_of_mem_filtered {l : List Loc} {loc : Loc}
    (h : loc ∈ l.filter (fun x => !x.timeline.isEmpty)) : loc.timeline ≠ [] := by
  have h2 := (List.mem_filter.mp h).2
  simpa [List.isEmpty_iff] using h2

/-- Claim C3: every Location emitted by normalization has a non-empty
timeline (empty ones are dropped), each weather Location's timeline length
equals the length of the reference element series, and a present non-empty
`Wx` series is always the chosen reference. -/
theorem timeline_nonempty_and_reference_length :
    (∀ (payload : Payload) (loc : Loc), loc ∈ normalize_locations payload →
        loc.timeline ≠ []) ∧
    (∀ raw : RawLocation,
        (parse_location raw).timeline.length
          = (get_reference_series (buildElementMap raw.weatherElement)).length) ∧
    (∀ (m : List (String × List TimeBlock)) (s : List TimeBlock),
        dictGet m "Wx" = some s → s ≠ [] → get_reference_series m = s) := by
  refine ⟨?_, ?_, ?_⟩
  · intro payload loc hmem
    simp only [normalize_locations] at hmem
    by_cases hw : (weatherLocs payload).isEmpty = true
    · rw [if_pos hw] at hmem
      exact timeline_ne_nil_of_mem_filtered (l := (extract_tide_forecasts payload).map parse_tide_location)
        (by simpa [tideLocs] using mem_sortByName.mp hmem)
    · rw [if_neg hw] at hmem
      exact timeline_ne_nil_of_mem_filtered
        (l := ((payload.records.map Records.location).getD []).map parse_location)
        (by simpa [weatherLocs] using mem_sortByName.mp hmem)
  · intro raw
    show (build_timeline (buildElementMap raw.weatherElement)).length = _
    unfold build_timeline
    rw [List.length_map, List.enum_length]
  · intro m s hget hne
    have hie : s.isEmpty = false := List.isEmpty_eq_false.mpr hne
    have h1 : refLookup m ["Wx", "WeatherDescription", "MinT", "MaxT"] = some s := by
      unfold refLookup
      rw [hget]
      simp [hie]
    unfold get_reference_series
    rw [h1]

/-- A raw location with a single `MinT` element. -/
def rawLoc1 : RawLocation :=
  { locationName := some "臺北市",
    weatherElement := [{ elementName := some "MinT", time := [tbMin] }] }

/-- A payload whose `records.location` holds exactly `rawLoc1`. -/
def payload1 : Payload := { records := some { location := [rawLoc1] } }

/-- An element map holding only a singleton `Wx` series. -/
def emWx : List (String × List TimeBlock) := [("Wx", [tbMin])]

/-- Concrete instance of C3. -/
theorem timeline_nonempty_and_reference_length_witness :
    (parse_location rawLoc1).timeline ≠ [] ∧
    get_reference_series emWx = [tbMin] :=
  ⟨timeline_nonempty_and_reference_length.1 payload1 (parse_location rawLoc1)
      (by
        have h1 : weatherLocs payload1 = [parse_location rawLoc1] := rfl
        simp [normalize_locations, h1, sortByName, List.mergeSort_singleton]),
   timeline_nonempty_and_reference_length.2.2 emWx [tbMin] rfl (by simp)⟩

/-! ## Claim C4: output sorted by name -/

lemma locNameLe_trans :
    ∀ a b c : Loc, locNameLe a b = true → locNameLe b c = true → locNameLe a c = true := by
  intro a b c hab hbc
  simp only [locNameLe, decide_eq_true_eq] at *
  exact le_trans hab hbc

lemma locNameLe_total : ∀ a b : Loc, (locNameLe a b || locNameLe b a) = true := by
  intro a b
  rcases le_total a.name b.name with h | h <;> simp [locNameLe, h]

lemma sortByName_sorted (l : List Loc) :
    (sortByName l).Sorted (fun a b => a.name ≤ b.name) := by
  have h := @List.sorted_mergeSort Loc locNameLe locNameLe_trans locNameLe_total l
  exact h.imp (fun hab => of_decide_eq_true hab)

/-- Claim C4: for every input payload, normalization returns the Locations
sorted by name in ascending ordinal (code-point lexicographic) order,
regardless of payload order. -/
theorem normalize_locations_sorted (payload : Payload) :
    (normalize_locations payload).Sorted (fun a b => a.name ≤ b.name) := by
  simp only [normalize_locations]
  split
  · exact sortByName_sorted _
  · exact sortByName_sorted _

/-! ## Claim C9: the weather path preempts the tide path -/

lemma normalize_eq_weather_of_ne {payload : Payload} (h : weatherLocs payload ≠ []) :
    normalize_locations payload = sortByName (weatherLocs payload) := by
  have hne : (weatherLocs payload).isEmpty = false := List.isEmpty_eq_false.mpr h
  simp [normalize_locations, hne]

/-- Claim C9: when parsing `records.location` retains at least one Location,
the result is exactly the sorted weather list, every result entry has
category `"weather"`, and replacing the payload's tide content
(`records.TideForecasts` and `cwaopendata`) changes nothing — the tide path
runs only when the weather path retains zero Locations. -/
theorem weather_path_preempts_tide (payload : Payload)
    (tf : Option (List TideForecast)) (cwa : Option Cwaopendata)
    (h : weatherLocs payload ≠ []) :
    normalize_locations payload = sortByName (weatherLocs payload) ∧
    (∀ loc ∈ normalize_locations payload, loc.category = "weather") ∧
    normalize_locations
        { records := payload.records.map (fun r => { r with TideForecasts := tf }),
          cwaopendata := cwa }
      = normalize_locations payload := by
  have hw : weatherLocs
      { records := payload.records.map (fun r => { r with TideForecasts := tf }),
        cwaopendata := cwa } = weatherLocs payload := by
    obtain ⟨recs, cwaOld⟩ := payload
    cases recs <;> rfl
  refine ⟨normalize_eq_weather_of_ne h, ?_, ?_⟩
  · intro loc hmem
    rw [normalize_eq_weather_of_ne h] at hmem
    have h0 : loc ∈ weatherLocs payload := mem_sortByName.mp hmem
    unfold weatherLocs at h0
    have h2 := (List.mem_filter.mp h0).1
    rcases List.mem_map.mp h2 with ⟨raw, _, hraw⟩
    rw [← hraw]
    rfl
  · rw [normalize_eq_weather_of_ne h, normalize_eq_weather_of_ne (hw ▸ h), hw]

/-- Concrete instance of C9. -/
theorem weather_path_preempts_tide_witness :
    normalize_locations payload1 = sortByName (weatherLocs payload1) ∧
    (∀ loc ∈ normalize_locations payload1, loc.category = "weather") ∧
    normalize_locations
        { records := payload1.records.map (fun r => { r with TideForecasts := none }),
          cwaopendata := none }
      = normalize_locations payload1 :=
  weather_path_preempts_tide payload1 none none
    (by
      have h1 : weatherLocs payload1 = [parse_location rawLoc1] := rfl
      simp [h1])

/-! ## Claim C6: tide height conversion -/

lemma tideSlot_heights (daily : DailyPeriod) (slot : Slot)
    (h : tideSlot daily = some slot)
    (hne : dailyHeights (daily.Time.getD []) ≠ []) :
    slot.min_temp = convert_height_to_meters (dailyHeights (daily.Time.getD [])).min? ∧
    slot.max_temp = convert_height_to_meters (dailyHeights (daily.Time.getD [])).max? ∧
    slot.apparent_temp = convert_height_to_meters
        (some ((dailyHeights (daily.Time.getD [])).sum
                / ((dailyHeights (daily.Time.getD [])).length : ℚ))) := by
  have hie : (dailyHeights (daily.Time.getD [])).isEmpty = false :=
    List.isEmpty_eq_false.mpr hne
  simp only [tideSlot] at h
  by_cases ht : (daily.Time.getD []).isEmpty = true
  · rw [if_pos ht] at h
    cases h
  · rw [if_neg ht] at h
    have h' := Option.some.inj h
    subst h'
    refine ⟨?_, ?_, ?_⟩ <;> simp [hie]

/-- Claim C6: `TideHeights.AboveTWVD` values are converted from centimeters to
meters by dividing by 100 (150 yields 1.5); every emitted tide slot comes from
one daily period, and when the day has any non-null height its minValue and
maxValue are the converted minimum and maximum of those heights while
apparentValue is the converted mean. -/
theorem tide_height_conversion :
    convert_height_to_meters (some 150) = some ((3 : ℚ) / 2) ∧
    (∀ q : ℚ, convert_height_to_meters (some q) = some (q / 100)) ∧
    (∀ (dp : List DailyPeriod) (slot : Slot), slot ∈ build_tide_timeline dp →
        ∃ daily, daily ∈ dp.take 3 ∧ tideSlot daily = some slot) ∧
    (∀ (daily : DailyPeriod) (slot : Slot), tideSlot daily = some slot →
        dailyHeights (daily.Time.getD []) ≠ [] →
        slot.min_temp = convert_height_to_meters (dailyHeights (daily.Time.getD [])).min? ∧
        slot.max_temp = convert_height_to_meters (dailyHeights (daily.Time.getD [])).max? ∧
        slot.apparent_temp = convert_height_to_meters
            (some ((dailyHeights (daily.Time.getD [])).sum
                    / ((dailyHeights (daily.Time.getD [])).length : ℚ)))) := by
  refine ⟨by norm_num [convert_height_to_meters], fun q => rfl, ?_, tideSlot_heights⟩
  intro dp slot hmem
  unfold build_tide_timeline at hmem
  exact List.mem_filterMap.mp hmem

/-- A tide time entry with height 150 cm. -/
def tide150 : TideTime := { TideHeights := some { AboveTWVD := some "150" } }

/-- A tide time entry with height 50 cm. -/
def tide50 : TideTime := { TideHeights := some { AboveTWVD := some "50" } }

/-- A daily period with two height readings. -/
def daily1 : DailyPeriod := { TideRange := some "大", Time := some [tide150, tide50] }

/-- An all-null slot used as a `getD` default. -/
def dummySlot : Slot :=
  { startTime := none, endTime := none, weather := none, weather_code := none,
    pop := none, min_temp := none, max_temp := none, apparent_temp := none,
    comfort := none, unit := "", avg_temp := none }

/-- The slot `build_tide_timeline` emits for `daily1`. -/
def tideSlot1 : Slot := (tideSlot daily1).getD dummySlot

/-- Concrete instance of C6. -/
theorem tide_height_conversion_witness :
    tideSlot1.min_temp = convert_height_to_meters (dailyHeights (daily1.Time.getD [])).min? ∧
    tideSlot1.max_temp = convert_height_to_meters (dailyHeights (daily1.Time.getD [])).max? ∧
    tideSlot1.apparent_temp = convert_height_to_meters
        (some ((dailyHeights (daily1.Time.getD [])).sum
                / ((dailyHeights (daily1.Time.getD [])).length : ℚ))) :=
  tide_height_conversion.2.2.2 daily1 tideSlot1 rfl (by decide)

end CwaApp
